import Mathlib

/-!
# Datacol client: stack lifecycle, controller gateway and exec bridge

A shallow embedding of `cmd/stack.go`, `cmd/run.go`, `client/apps.go` and
`client/client.go`.

Every call that leaves the process (provider, controller RPC, filesystem,
subprocess, terminal) is a field of an environment record: the field gives
the value the call returns, and the embedded function records the call, with
its arguments, in a trace.  State that the code mutates (the auth registry,
the `Client` struct, the sink of a log stream) is passed explicitly.
-/

namespace Datacol

/-- Go `[]byte`. -/
abbrev Bytes := List UInt8

/-- Go `error` values.  `none : Option GoError` stands for Go's `nil` error.
The named constructors are the package-level error variables the code
compares against or returns; every other error is `other`. -/
inductive GoError where
  /-- The Go `io.EOF` -/
  | EOF
  /-- The Go `credNotFound = errors.New("Invalid credentials")` in `cmd/stack.go` -/
  | credNotFound
  /-- The Go `projectNotFound = errors.New("Invalid project id")` in `cmd/stack.go` -/
  | projectNotFound
  /-- The Go `stack404 = errors.New("Please create a stack with: $ rz init")` in `client/client.go` -/
  | stack404
  | other (msg : String)
  deriving DecidableEq, Repr

/-! ## `cmd/stack.go` -/

/-- The fields of `gcp.InitOptions` that `cmdStackCreate` and the init flow
read or write (the struct itself is declared in the provider package). -/
structure InitOptions where
  Name : String
  ClusterName : String
  DiskSize : Int
  NumNodes : Int
  MachineType : String
  Zone : String
  Bucket : String
  Preemptible : Bool
  Version : String
  ApiKey : String
  ClusterVersion : String
  Project : String
  ProjectNumber : Int
  SAEmail : String
  ClusterNotExists : Bool
  deriving DecidableEq, Repr

/-- The value returned by `gcp.CreateCredential`. -/
structure CredResp where
  Err : Option GoError
  Cred : Bytes
  ProjectId : String
  PNumber : Int
  SAEmail : String
  deriving DecidableEq, Repr

/-- The value returned beside a nil error by `gcp.InitializeStack`. -/
structure InitResult where
  Host : String
  Password : String
  deriving DecidableEq, Repr

/-- The record `stdcli.Auth` built by `dumpParams`. -/
structure Auth where
  Name : String
  Project : String
  Bucket : String
  ApiServer : String
  ApiKey : String
  deriving DecidableEq, Repr

/-- One call made by the code to the world outside it, with its arguments. -/
inductive Event where
  | CreateCredential (name : String) (optout : Bool)
  | MkdirAll (path : String) (perm : Nat)
  | WriteFile (path : String) (data : Bytes) (perm : Nat)
  | Debugf (msg : String)
  | Printf (format : String)
  | Println (msg : String)
  | Confirm (question : String)
  | InitializeStack (opts : InitOptions)
  | SetAuth (auth : Auth)
  | GetAuthOrDie
  | TeardownStack (name project bucket : String)
  | DeleteAuth
  | RemoveAll (path : String)
  /-- The Go `exec.Command(name, argv...)` followed by `Run` -/
  | Command (name : String) (argv : List String)
  /-- The Go `client.Persist(bucket, pk, object)`, the write of a record of the
  stack registry in `client/client.go` -/
  | Persist (bucket : Bytes) (pk : String)
  deriving DecidableEq, Repr

/-- The collaborators of `cmd/stack.go`.  `σ` is the state of the auth
registry behind `stdcli`; only `SetAuth` and `DeleteAuth` change it. -/
structure Env (σ : Type) where
  /-- The Go `pb.ConfigPath` -/
  ConfigPath : String
  /-- The Go `pb.SvaFilename` -/
  SvaFilename : String
  /-- The Go `filepath.Join` -/
  Join : List String → String
  /-- The Go `slug`, declared elsewhere in package `main` -/
  slug : String → String
  CreateCredential : String → Bool → CredResp
  MkdirAll : String → Nat → Option GoError
  WriteFile : String → Bytes → Nat → Option GoError
  Confirm : String → Bool
  InitializeStack : InitOptions → Except GoError InitResult
  SetAuth : Auth → σ → Option GoError × σ
  /-- The Go `stdcli.GetAuthOrDie`; `none` when it ends the process -/
  GetAuthOrDie : σ → Option Auth
  TeardownStack : String → String → String → Option GoError
  DeleteAuth : σ → Option GoError × σ
  RemoveAll : String → Option GoError

/-- What a function of `cmd/stack.go` leaves behind: the error it returns,
the registry state and the calls it made, oldest first. -/
structure Run (σ : Type) where
  err : Option GoError
  store : σ
  trace : List Event

variable {σ : Type}

/-- The function `createStackDir` -/
def createStackDir (E : Env σ) (name : String) : Option GoError × List Event :=
  let cfgroot := E.Join [E.ConfigPath, name]
  (E.MkdirAll cfgroot 0o700, [Event.MkdirAll cfgroot 0o700])

/-- The function `saveCredential` -/
def saveCredential (E : Env σ) (name : String) (data : Bytes) :
    Option GoError × List Event :=
  let d := createStackDir E name
  match d.1 with
  | some err => (some err, d.2)
  | none =>
    let path := E.Join [E.ConfigPath, name, E.SvaFilename]
    (E.WriteFile path data 0o777,
      d.2 ++ [Event.Debugf ("saving GCP credentials at " ++ path),
              Event.WriteFile path data 0o777])

/-- The function `dumpParams` -/
def dumpParams (E : Env σ) (name project bucket host api_key : String) (s : σ) : Run σ :=
  let auth : Auth :=
    { Name := name, Project := project, Bucket := bucket, ApiServer := host, ApiKey := api_key }
  let r := E.SetAuth auth s
  { err := r.1, store := r.2, trace := [Event.SetAuth auth] }

/-- The assignments to `opts` in the init flow between `saveCredential` and
the confirmation prompt (`opts.Project = ...` up to the cluster-name default). -/
def resolveOptions (E : Env σ) (opts : InitOptions) (resp : CredResp) : InitOptions :=
  let opts := { opts with Project := resp.ProjectId }
  let opts := { opts with ProjectNumber := resp.PNumber }
  let opts := { opts with SAEmail := resp.SAEmail }
  let opts :=
    if opts.Bucket.length = 0 then
      { opts with Bucket := "datacol-" ++ E.slug opts.Project }
    else opts
  let name := opts.Name
  if opts.ClusterName.length = 0 then
    { opts with ClusterNotExists := true, ClusterName := name ++ "-cluster" }
  else
    { opts with ClusterNotExists := false }

/-- The list `apis` of the init flow. -/
def apis : List String :=
  ["datastore.googleapis.com", "cloudbuild.googleapis.com", "deploymentmanager",
   "iam.googleapis.com"]

/-- The `url` of the init flow. -/
def enableApiUrl (project : String) : String :=
  "https://console.cloud.google.com/flows/enableapi?apiid=" ++ ",".intercalate apis
    ++ "&project=" ++ project

/-- The function `initialize` of `cmd/stack.go`, under another name because
that word is a keyword of Lean.  The parameter `nodes` is not used in the
source either, and the answer of `term.Confirm` is not looked at. -/
def initializeFlow (E : Env σ) (opts : InitOptions) (_nodes : Int) (optout : Bool) (s : σ) :
    Run σ :=
  let resp := E.CreateCredential opts.Name optout
  let t0 := [Event.CreateCredential opts.Name optout]
  match resp.Err with
  | some e => { err := some e, store := s, trace := t0 }
  | none =>
    let cred := resp.Cred
    if cred.length = 0 then
      { err := some GoError.credNotFound, store := s, trace := t0 }
    else if resp.ProjectId.length = 0 then
      { err := some GoError.projectNotFound, store := s, trace := t0 }
    else
      let saved := saveCredential E opts.Name cred
      let t1 := saved.2
      match saved.1 with
      | some e => { err := some e, store := s, trace := t0 ++ t1 }
      | none =>
        let opts := resolveOptions E opts resp
        let url := enableApiUrl opts.Project
        let t2 := t0 ++ t1 ++
          [Event.Printf ("\nDatacol needs to communicate with various APIs provided by cloud platform, please enable APIs by opening following link in browser and click Continue: \n" ++ url ++ "\n"),
           Event.Confirm "Are you done ?",
           Event.InitializeStack opts]
        match E.InitializeStack opts with
        | Except.error e => { err := some e, store := s, trace := t2 }
        | Except.ok res =>
          let t3 := t2 ++
            [Event.Printf ("\nStack hostIP " ++ res.Host ++ "\n"),
             Event.Printf ("Stack password: " ++ res.Password ++ " [Please keep is secret]\n"),
             Event.Println "The above configuration has been saved in your home directory at ~/.datacol/config.json"]
          let r := dumpParams E opts.Name opts.Project opts.Bucket res.Host res.Password s
          { err := r.err, store := r.store, trace := t3 ++ r.trace }

/-- The function `teardown` of `cmd/stack.go`; `none` when
`stdcli.GetAuthOrDie` ends the process. -/
def teardown (E : Env σ) (s : σ) : Option (Run σ) :=
  match E.GetAuthOrDie s with
  | none => none
  | some auth =>
    let t0 := [Event.GetAuthOrDie, Event.TeardownStack auth.Name auth.Project auth.Bucket]
    match E.TeardownStack auth.Name auth.Project auth.Bucket with
    | some err => some { err := some err, store := s, trace := t0 }
    | none =>
      let s1 := (E.DeleteAuth s).2
      match (E.DeleteAuth s).1 with
      | some err => some { err := some err, store := s1, trace := t0 ++ [Event.DeleteAuth] }
      | none =>
        let path := E.Join [E.ConfigPath, auth.Name]
        some { err := E.RemoveAll path, store := s1,
               trace := t0 ++ [Event.DeleteAuth, Event.RemoveAll path] }

/-- Is the call a `stdcli.SetAuth`? -/
def Event.isSetAuth : Event → Bool
  | Event.SetAuth _ => true
  | _ => false

/-- Is the call a `client.Persist`? -/
def Event.isPersist : Event → Bool
  | Event.Persist _ _ => true
  | _ => false

/-- Is the call a `DeleteAuth` or a `RemoveAll`? -/
def Event.isLocalDelete : Event → Bool
  | Event.DeleteAuth => true
  | Event.RemoveAll _ => true
  | _ => false

/-- Number of Auth records handed to the registry in a trace. -/
def authWrites (t : List Event) : Nat := t.countP Event.isSetAuth

/-- Number of Stack records written to the stack registry in a trace. -/
def stackWrites (t : List Event) : Nat := t.countP Event.isPersist

/-- The Auth records handed to `SetAuth` in a trace, oldest first. -/
def authsHanded (t : List Event) : List Auth :=
  t.filterMap fun e => match e with
    | Event.SetAuth a => some a
    | _ => none

/-- The init run fails at or before provisioning: one of the five failures
between `CreateCredential` and `InitializeStack`. -/
def FailsBeforePersist (E : Env σ) (opts : InitOptions) (optout : Bool) : Prop :=
  let resp := E.CreateCredential opts.Name optout
  resp.Err ≠ none ∨ resp.Cred.length = 0 ∨ resp.ProjectId.length = 0 ∨
    (saveCredential E opts.Name resp.Cred).1 ≠ none ∨
    (∃ e, E.InitializeStack (resolveOptions E opts resp) = Except.error e)

/-- Credential issuance, credential saving and `InitializeStack` all succeed,
the provider returning project id `p`, host `h` and password `w`. -/
def Provisions (E : Env σ) (opts : InitOptions) (optout : Bool) (p h w : String) : Prop :=
  let resp := E.CreateCredential opts.Name optout
  resp.Err = none ∧ resp.Cred.length ≠ 0 ∧ resp.ProjectId = p ∧ p.length ≠ 0 ∧
    (saveCredential E opts.Name resp.Cred).1 = none ∧
    E.InitializeStack (resolveOptions E opts resp) = Except.ok { Host := h, Password := w }

/-- The Auth record the init flow builds for stack options `opts`, project id
`p`, host `h` and password `w`. -/
def expectedAuth (E : Env σ) (opts : InitOptions) (p h w : String) : Auth :=
  { Name := opts.Name, Project := p,
    Bucket := if opts.Bucket = "" then "datacol-" ++ E.slug p else opts.Bucket,
    ApiServer := h, ApiKey := w }

/-! ## `client/client.go` -/

/-- A record of the stack registry. -/
structure Stack where
  Name : String
  ProjectId : String
  Zone : String
  Bucket : String
  ServiceKey : String
  deriving DecidableEq, Repr

/-- The struct `Client`; the embedded `*Stack` is a pointer, `none` is nil. -/
structure Client where
  Version : String
  StackName : String
  Stack : Option Datacol.Stack
  deriving DecidableEq, Repr

/-- The function `Client.SetStack`.  `FindStack` is the registry lookup, declared elsewhere
in package `client`; it returns a pointer and an error. -/
def Client.SetStack (FindStack : String → Option Datacol.Stack × Option GoError)
    (c : Client) (name : String) : Option GoError × Client :=
  let c := { c with StackName := name }
  let st := (FindStack name).1
  match (FindStack name).2 with
  | some _ => (some GoError.stack404, c)
  | none => (none, { c with Stack := st })

/-! ## `client/apps.go` -/

/-- How a Go call ends: it returns, or it panics (here always a nil pointer
dereference). -/
inductive Outcome (α : Type) where
  | returned (a : α)
  | panicked
  deriving DecidableEq, Repr

/-- One call on the controller client, on the log stream or on the sink. -/
inductive Rpc where
  | AppList
  | AppGet (name : String)
  | AppCreate (name : String)
  | AppDelete (name : String)
  | AppRestart (name : String)
  | EnvironmentGet (name : String)
  | EnvironmentSet (name data : String)
  | ProcessRun (name : String) (command : List String)
  | OpenLogStream (name : String) (since : Int) (follow : Bool)
  | Recv
  | CloseSend
  | Write (data : Bytes)
  deriving DecidableEq, Repr

/-- The controller client `c.ProviderServiceClient`.  Every unary call
returns a pointer to its response (`none` is nil) and an error.  `App`,
`Apps`, `Env` and `Cmd` are the payload types of the controller API, `τ` the
state of an open log stream. -/
structure Controller (App Apps Env Cmd τ : Type) where
  /-- the response struct has the one field `Apps` -/
  AppList : Option Apps × Option GoError
  AppGet : String → Option App × Option GoError
  AppCreate : String → Option App × Option GoError
  AppDelete : String → Option Unit × Option GoError
  AppRestart : String → Option Unit × Option GoError
  /-- the response struct has the one field `Data` -/
  EnvironmentGet : String → Option Env × Option GoError
  EnvironmentSet : String → String → Option Unit × Option GoError
  ProcessRun : String → List String → Option Cmd × Option GoError
  /-- The Go `LogStream(ctx, req)`: a stream handle or an error -/
  OpenLogStream : String → Int → Bool → Except GoError τ
  /-- The Go `stream.Recv()`: a chunk (`ret.Data`) or an error, and the next state -/
  Recv : τ → Except GoError Bytes × τ

/-- The calls a gateway operation made and how it ended. -/
structure Gw (α : Type) where
  calls : List Rpc
  out : Outcome α

section Gateway
variable {App Apps Env Cmd τ : Type}

/-- The function `Client.GetApps`: `ret.Apps` is read before the error is looked at. -/
def GetApps (K : Controller App Apps Env Cmd τ) : Gw (Apps × Option GoError) :=
  let err := K.AppList.2
  match K.AppList.1 with
  | none => { calls := [Rpc.AppList], out := Outcome.panicked }
  | some ret => { calls := [Rpc.AppList], out := Outcome.returned (ret, err) }

/-- The function `Client.GetApp` -/
def GetApp (K : Controller App Apps Env Cmd τ) (name : String) :
    Gw (Option App × Option GoError) :=
  { calls := [Rpc.AppGet name], out := Outcome.returned (K.AppGet name) }

/-- The function `Client.CreateApp` -/
def CreateApp (K : Controller App Apps Env Cmd τ) (name : String) :
    Gw (Option App × Option GoError) :=
  { calls := [Rpc.AppCreate name], out := Outcome.returned (K.AppCreate name) }

/-- The function `Client.DeleteApp` -/
def DeleteApp (K : Controller App Apps Env Cmd τ) (name : String) : Gw (Option GoError) :=
  { calls := [Rpc.AppDelete name], out := Outcome.returned (K.AppDelete name).2 }

/-- The function `Client.RestartApp` -/
def RestartApp (K : Controller App Apps Env Cmd τ) (name : String) : Gw (Option GoError) :=
  { calls := [Rpc.AppRestart name], out := Outcome.returned (K.AppRestart name).2 }

/-- The function `Client.RunProcess` -/
def RunProcess (K : Controller App Apps Env Cmd τ) (name : String) (args : List String) :
    Gw (Option Cmd × Option GoError) :=
  { calls := [Rpc.ProcessRun name args], out := Outcome.returned (K.ProcessRun name args) }

/-- The function `Client.GetEnvironment`: the error is looked at before `ret.Data` is read.
The returned `pb.Environment` is a map, `none` is the nil map. -/
def GetEnvironment (K : Controller App Apps Env Cmd τ) (name : String) :
    Gw (Option Env × Option GoError) :=
  match (K.EnvironmentGet name).2 with
  | some err => { calls := [Rpc.EnvironmentGet name], out := Outcome.returned (none, some err) }
  | none =>
    match (K.EnvironmentGet name).1 with
    | none => { calls := [Rpc.EnvironmentGet name], out := Outcome.panicked }
    | some ret => { calls := [Rpc.EnvironmentGet name], out := Outcome.returned (some ret, none) }

/-- The function `Client.SetEnvironment` -/
def SetEnvironment (K : Controller App Apps Env Cmd τ) (name data : String) :
    Gw (Option GoError) :=
  { calls := [Rpc.EnvironmentSet name data],
    out := Outcome.returned (K.EnvironmentSet name data).2 }

/-- What `StreamAppLogs` leaves behind: the error it returns, the state of the
sink and the calls it made, oldest first. -/
structure StreamRun (ω : Type) where
  err : Option GoError
  sink : ω
  calls : List Rpc

/-- The `for` loop of `Client.StreamAppLogs`.  `Write` is `out.Write`; each
unit of fuel pays for one iteration, `none` is fuel exhausted. -/
def recvLoop {ω : Type} (Recv : τ → Except GoError Bytes × τ)
    (Write : Bytes → ω → Option GoError × ω) :
    Nat → τ → ω → List Rpc → Option (StreamRun ω)
  | 0, _, _, _ => none
  | fuel + 1, st, snk, tr =>
    match (Recv st).1 with
    | Except.error err =>
      if err = GoError.EOF then some { err := none, sink := snk, calls := tr ++ [Rpc.Recv] }
      else some { err := some err, sink := snk, calls := tr ++ [Rpc.Recv] }
    | Except.ok data =>
      let snk1 := (Write data snk).2
      match (Write data snk).1 with
      | some err =>
        some { err := some err, sink := snk1, calls := tr ++ [Rpc.Recv, Rpc.Write data] }
      | none => recvLoop Recv Write fuel (Recv st).2 snk1 (tr ++ [Rpc.Recv, Rpc.Write data])

/-- The function `Client.StreamAppLogs`; the deferred `stream.CloseSend()` runs when the
loop returns. -/
def StreamAppLogs {ω : Type} (K : Controller App Apps Env Cmd τ) (name : String)
    (follow : Bool) (since : Int) (Write : Bytes → ω → Option GoError × ω) (snk : ω)
    (fuel : Nat) : Option (StreamRun ω) :=
  match K.OpenLogStream name since follow with
  | Except.error err =>
    some { err := some err, sink := snk, calls := [Rpc.OpenLogStream name since follow] }
  | Except.ok stream =>
    match recvLoop K.Recv Write fuel stream snk [Rpc.OpenLogStream name since follow] with
    | none => none
    | some r => some { r with calls := r.calls ++ [Rpc.CloseSend] }

end Gateway

/-- The chunks written to the sink in a list of calls, oldest first. -/
def written (calls : List Rpc) : List Bytes :=
  calls.filterMap fun c => match c with
    | Rpc.Write d => some d
    | _ => none

/-- From state `st` the stream yields exactly `chunks`, in order, and then the
receive error `final`. -/
def Yields {τ : Type} (Recv : τ → Except GoError Bytes × τ) :
    τ → List Bytes → GoError → Prop
  | st, [], final => (Recv st).1 = Except.error final
  | st, c :: cs, final => (Recv st).1 = Except.ok c ∧ Yields Recv (Recv st).2 cs final

/-- A stream that holds its remaining chunks and its final error. -/
def listRecv (final : GoError) : List Bytes → Except GoError Bytes × List Bytes
  | [] => (Except.error final, [])
  | c :: cs => (Except.ok c, cs)

/-- A sink that keeps what it is given and never fails (a `bytes.Buffer`). -/
def bufferWrite (data : Bytes) (buf : Bytes) : Option GoError × Bytes :=
  (none, buf ++ data)

/-- A controller whose unary calls all fail with `e` and no response and whose
log stream yields `chunks` and then `final`. -/
def failingController (e final : GoError) (chunks : List Bytes) :
    Controller Unit Unit Unit Unit (List Bytes) :=
  { AppList := (none, some e)
    AppGet := fun _ => (none, some e)
    AppCreate := fun _ => (none, some e)
    AppDelete := fun _ => (none, some e)
    AppRestart := fun _ => (none, some e)
    EnvironmentGet := fun _ => (none, some e)
    EnvironmentSet := fun _ _ => (none, some e)
    ProcessRun := fun _ _ => (none, some e)
    OpenLogStream := fun _ _ _ => Except.ok chunks
    Recv := listRecv final }

/-! ## `cmd/run.go` -/

/-- Go's `syscall.WaitStatus` on Linux, the raw status word of `wait4`. -/
structure WaitStatus where
  raw : Nat
  deriving DecidableEq, Repr

/-- The function `syscall.WaitStatus.Exited` of the Go standard library on Linux:
`w&mask == exited` with `mask = 0x7F` and `exited = 0`. -/
def WaitStatus.Exited (w : WaitStatus) : Bool := w.raw % 128 == 0

/-- The function `syscall.WaitStatus.ExitStatus` of the Go standard library on Linux:
`-1` when the process has not exited, otherwise `int(w>>shift) & 0xFF` with
`shift = 8`. -/
def WaitStatus.ExitStatus (w : WaitStatus) : Int :=
  if !w.Exited then -1 else ((w.raw / 256) % 256 : Nat)

/-- The non-nil errors of `exec.Cmd.Run`, as far as `execute_exec` tells them
apart: an `*exec.ExitError`, whose `Sys()` is a `syscall.WaitStatus` (`some`)
or a value of another type (`none`), or any other error. -/
inductive RunError where
  | ExitError (sys : Option WaitStatus)
  | other (e : GoError)
  deriving DecidableEq, Repr

/-- What running the subprocess gives: the two captured buffers and the error
of `c.Run()`. -/
structure ProcResult where
  stdout : String
  stderr : String
  err : Option RunError
  deriving DecidableEq, Repr

/-- The collaborators of `cmd/run.go`. -/
structure ExecEnv where
  /-- The Go `models.ConfigPath` -/
  ConfigPath : String
  /-- The Go `filepath.Join` -/
  Join : List String → String
  /-- The Go `exec.Command(name, argv...).Run()` with captured output -/
  Run : String → List String → ProcResult

/-- What `execute_exec` leaves behind. -/
structure ExecRun where
  argv : List String
  trace : List Event
  exitcode : Int
  deriving DecidableEq, Repr

/-- The two type assertions of `execute_exec`: the value of `exitcode` after
them. -/
def exitcodeOf : Option RunError → Int
  | some (RunError.ExitError (some waitStatus)) => waitStatus.ExitStatus
  | _ => 0

/-- The function `execute_exec` of `cmd/run.go`.  The buffer that is printed is
the format string of `fmt.Printf`. -/
def execute_exec (X : ExecEnv) (env pod : String) (args : List String) : ExecRun :=
  let cfgpath := X.Join [X.ConfigPath, env, "kubeconfig"]
  let args := ["--kubeconfig", cfgpath, "-n", env, "--pod", pod, "exec"] ++ args
  let t0 := [Event.Debugf ("kubectl [" ++ " ".intercalate args ++ "]"),
             Event.Command "kubectl" args]
  let p := X.Run "kubectl" args
  let exitcode := exitcodeOf p.err
  if exitcode = 0 then
    { argv := args, trace := t0 ++ [Event.Printf p.stdout], exitcode := exitcode }
  else
    { argv := args, trace := t0 ++ [Event.Printf p.stderr], exitcode := exitcode }

/-- The buffers handed to `fmt.Printf` in a trace, oldest first. -/
def printed (t : List Event) : List String :=
  t.filterMap fun e => match e with
    | Event.Printf s => some s
    | _ => none

/-! ## Concrete environments -/

/-- A provider and filesystem that succeed at every step, with a registry that
is the list of Auth records it was given, newest first. -/
def demoEnv : Env (List Auth) :=
  { ConfigPath := "/home/user/.datacol"
    SvaFilename := "sva.json"
    Join := fun parts => "/".intercalate parts
    slug := fun s => s
    CreateCredential := fun _ _ =>
      { Err := none, Cred := [123, 125], ProjectId := "proj-1", PNumber := 42,
        SAEmail := "sa@proj-1.example" }
    MkdirAll := fun _ _ => none
    WriteFile := fun _ _ _ => none
    Confirm := fun _ => true
    InitializeStack := fun _ => Except.ok { Host := "10.0.0.1", Password := "secret" }
    SetAuth := fun a s => (none, a :: s)
    GetAuthOrDie := fun s => s.head?
    TeardownStack := fun _ _ _ => none
    DeleteAuth := fun s => (none, s.tail)
    RemoveAll := fun _ => none }

/-- As `demoEnv`, but the provider issues an empty credential. -/
def emptyCredEnv : Env (List Auth) :=
  { demoEnv with
    CreateCredential := fun _ _ =>
      { Err := none, Cred := [], ProjectId := "proj-1", PNumber := 42,
        SAEmail := "sa@proj-1.example" } }

/-- As `demoEnv`, but the remote destroy fails. -/
def teardownFailsEnv : Env (List Auth) :=
  { demoEnv with TeardownStack := fun _ _ _ => some (GoError.other "destroy failed") }

/-- The options `cmdStackCreate` builds from the flag defaults of `init`. -/
def demoOpts : InitOptions :=
  { Name := "demo", ClusterName := "", DiskSize := 10, NumNodes := 2,
    MachineType := "n1-standard-1", Zone := "us-east1-b", Bucket := "", Preemptible := true,
    Version := "dev", ApiKey := "", ClusterVersion := "1.6.4", Project := "",
    ProjectNumber := 0, SAEmail := "", ClusterNotExists := false }

/-- An Auth record as a successful init of `demoOpts` on `demoEnv` leaves it. -/
def demoAuth : Auth :=
  { Name := "demo", Project := "proj-1", Bucket := "datacol-proj-1", ApiServer := "10.0.0.1",
    ApiKey := "secret" }

/-- The calls of the receive loop that relays `chunks`: a `Recv` and a `Write`
for each chunk, in order. -/
def relayCalls : List Bytes → List Rpc
  | [] => []
  | c :: cs => Rpc.Recv :: Rpc.Write c :: relayCalls cs

/-- An exec environment whose subprocess always ends as `p`. -/
def procEnv (p : ProcResult) : ExecEnv :=
  { ConfigPath := "/home/user/.datacol"
    Join := fun parts => "/".intercalate parts
    Run := fun _ _ => p }

/-- A subprocess killed by signal 9: the wait status word is the signal
number, so it is not a normal exit. -/
def killedProc : ProcResult :=
  { stdout := "out", stderr := "err", err := some (RunError.ExitError (some (WaitStatus.mk 9))) }

/-- A subprocess that exits with status 2 (wait status `2 << 8`) and stderr
`"boom"`. -/
def boomProc : ProcResult :=
  { stdout := "", stderr := "boom",
    err := some (RunError.ExitError (some (WaitStatus.mk (256 * 2)))) }

/-- A subprocess that exits with status 0 and stdout `"ok"`. -/
def okProc : ProcResult := { stdout := "ok", stderr := "", err := none }

/-- A stack record named `"a"`. -/
def stackA : Stack :=
  { Name := "a", ProjectId := "proj-1", Zone := "us-east1-b", Bucket := "datacol-proj-1",
    ServiceKey := "key" }

/-- A registry that knows the stack `"a"` and no other. -/
def registryA (name : String) : Option Stack × Option GoError :=
  if name = "a" then (some stackA, none) else (none, some (GoError.other "stack not found"))

/-- A fresh client: no stack selected. -/
def freshClient : Client := { Version := "dev", StackName := "", Stack := none }

/-- Does a Unix file mode grant any access to group or others
(`perm & 0o077 != 0`)? -/
def grantsGroupOrOthers (perm : Nat) : Bool := perm &&& 0o077 != 0

/-! ## Theorems: `cmd/stack.go` -/

theorem string_length_eq_zero (s : String) : s.length = 0 ↔ s = "" := by
  cases s with
  | mk d => simp [String.length, String.ext_iff]

theorem saveCredential_no_writes (E : Env σ) (name : String) (data : Bytes) :
    authWrites (saveCredential E name data).2 = 0 ∧
    stackWrites (saveCredential E name data).2 = 0 ∧
    authsHanded (saveCredential E name data).2 = [] := by
  unfold saveCredential createStackDir
  simp only []
  split <;> simp [authWrites, stackWrites, authsHanded, Event.isSetAuth, Event.isPersist]

theorem resolveOptions_Name (E : Env σ) (opts : InitOptions) (resp : CredResp) :
    (resolveOptions E opts resp).Name = opts.Name := by
  unfold resolveOptions
  simp only []
  split <;> split <;> rfl

theorem resolveOptions_Project (E : Env σ) (opts : InitOptions) (resp : CredResp) :
    (resolveOptions E opts resp).Project = resp.ProjectId := by
  unfold resolveOptions
  simp only []
  split <;> split <;> rfl

theorem resolveOptions_Bucket (E : Env σ) (opts : InitOptions) (resp : CredResp) :
    (resolveOptions E opts resp).Bucket =
      if opts.Bucket = "" then "datacol-" ++ E.slug resp.ProjectId else opts.Bucket := by
  unfold resolveOptions
  simp only [string_length_eq_zero]
  split_ifs <;> rfl

theorem initializeFlow_of_provisions (E : Env σ) (opts : InitOptions) (nodes : Int)
    (optout : Bool) (s : σ) (p h w : String) (hp : Provisions E opts optout p h w) :
    (initializeFlow E opts nodes optout s).err = (E.SetAuth (expectedAuth E opts p h w) s).1 ∧
    (initializeFlow E opts nodes optout s).store = (E.SetAuth (expectedAuth E opts p h w) s).2 ∧
    authsHanded (initializeFlow E opts nodes optout s).trace = [expectedAuth E opts p h w] ∧
    authWrites (initializeFlow E opts nodes optout s).trace = 1 ∧
    stackWrites (initializeFlow E opts nodes optout s).trace = 0 := by
  obtain ⟨h1, h2, h3, h4, h5, h6⟩ := hp
  subst h3
  obtain ⟨hs1, hs2, hs3⟩ :=
    saveCredential_no_writes E opts.Name (E.CreateCredential opts.Name optout).Cred
  unfold authWrites at hs1
  unfold stackWrites at hs2
  unfold authsHanded at hs3
  unfold initializeFlow
  simp only [h1, h5, h6, if_neg h2, if_neg h4]
  simp [dumpParams, authsHanded, authWrites, stackWrites, List.filterMap_append,
    List.countP_append, hs1, hs2, hs3, resolveOptions_Name, resolveOptions_Project,
    resolveOptions_Bucket, expectedAuth, Event.isSetAuth, Event.isPersist]

/-- C1: an init run that fails at or before provisioning (`CreateCredential`
returns an error, the credential is empty, the project id is empty,
`saveCredential` fails or `InitializeStack` returns an error) returns a
non-nil error, never calls `SetAuth` (nor any write of a Stack record), and
leaves the registry state as it was. -/
theorem initialize_failure_persists_nothing (E : Env σ) (opts : InitOptions) (nodes : Int)
    (optout : Bool) (s : σ) (hfail : FailsBeforePersist E opts optout) :
    (initializeFlow E opts nodes optout s).err ≠ none ∧
    authWrites (initializeFlow E opts nodes optout s).trace = 0 ∧
    stackWrites (initializeFlow E opts nodes optout s).trace = 0 ∧
    (initializeFlow E opts nodes optout s).store = s := by
  obtain ⟨hs1, hs2, -⟩ :=
    saveCredential_no_writes E opts.Name (E.CreateCredential opts.Name optout).Cred
  unfold authWrites at hs1
  unfold stackWrites at hs2
  unfold FailsBeforePersist at hfail
  simp only [] at hfail
  unfold initializeFlow
  simp only []
  split
  · simp [authWrites, stackWrites, Event.isSetAuth, Event.isPersist]
  · rename_i hErr
    split
    · simp [authWrites, stackWrites, Event.isSetAuth, Event.isPersist]
    · rename_i hCred
      split
      · simp [authWrites, stackWrites, Event.isSetAuth, Event.isPersist]
      · rename_i hProj
        split
        · simp [authWrites, stackWrites, Event.isSetAuth, Event.isPersist, List.countP_append,
            hs1, hs2]
        · rename_i hSave
          split
          · simp [authWrites, stackWrites, Event.isSetAuth, Event.isPersist,
              List.countP_append, hs1, hs2]
          · rename_i res hInit
            rcases hfail with h | h | h | h | ⟨e, h⟩
            · exact absurd hErr h
            · exact absurd h hCred
            · exact absurd h hProj
            · exact absurd hSave h
            · rw [hInit] at h
              cases h

/-- Witness of C1: the provider issues an empty credential. -/
theorem initialize_failure_persists_nothing_witness :
    FailsBeforePersist emptyCredEnv demoOpts false ∧
    ((initializeFlow emptyCredEnv demoOpts 2 false []).err ≠ none ∧
     authWrites (initializeFlow emptyCredEnv demoOpts 2 false []).trace = 0 ∧
     stackWrites (initializeFlow emptyCredEnv demoOpts 2 false []).trace = 0 ∧
     (initializeFlow emptyCredEnv demoOpts 2 false []).store = []) :=
  ⟨Or.inr (Or.inl rfl),
   initialize_failure_persists_nothing emptyCredEnv demoOpts 2 false [] (Or.inr (Or.inl rfl))⟩

/-- C2, as stated, fails: in a successful init run on `demoEnv` the Auth
record is written once, but the number of Stack records written is 0, not 1. -/
theorem initialize_success_stack_record_counterexample :
    Provisions demoEnv demoOpts false "proj-1" "10.0.0.1" "secret" ∧
    (initializeFlow demoEnv demoOpts 2 false []).err = none ∧
    (initializeFlow demoEnv demoOpts 2 false []).store = [demoAuth] ∧
    authWrites (initializeFlow demoEnv demoOpts 2 false []).trace = 1 ∧
    stackWrites (initializeFlow demoEnv demoOpts 2 false []).trace = 0 ∧
    ¬ (stackWrites (initializeFlow demoEnv demoOpts 2 false []).trace = 1 ∧
       authWrites (initializeFlow demoEnv demoOpts 2 false []).trace = 1) := by
  refine ⟨?_, ?_, ?_, ?_, ?_, ?_⟩
  · exact ⟨rfl, by decide, rfl, by decide, rfl, rfl⟩
  · rfl
  · rfl
  · rfl
  · rfl
  · intro h
    exact absurd h.1 (by decide)

/-- C2, amended: in every init run in which credential issuance, credential
saving and `InitializeStack` succeed and `SetAuth` returns no error, the run
returns nil, hands exactly one Auth record to `SetAuth` (the registry state
afterwards is the one `SetAuth` returns for that record) and writes no Stack
record. -/
theorem initialize_success_persists_one_auth (E : Env σ) (opts : InitOptions) (nodes : Int)
    (optout : Bool) (s : σ) (p h w : String) (hp : Provisions E opts optout p h w)
    (hset : (E.SetAuth (expectedAuth E opts p h w) s).1 = none) :
    (initializeFlow E opts nodes optout s).err = none ∧
    authWrites (initializeFlow E opts nodes optout s).trace = 1 ∧
    authsHanded (initializeFlow E opts nodes optout s).trace = [expectedAuth E opts p h w] ∧
    (initializeFlow E opts nodes optout s).store = (E.SetAuth (expectedAuth E opts p h w) s).2 ∧
    stackWrites (initializeFlow E opts nodes optout s).trace = 0 := by
  obtain ⟨h1, h2, h3, h4, h5⟩ := initializeFlow_of_provisions E opts nodes optout s p h w hp
  exact ⟨h1.trans hset, h4, h3, h2, h5⟩

/-- Witness of amended C2: the successful run on `demoEnv`. -/
theorem initialize_success_persists_one_auth_witness :
    Provisions demoEnv demoOpts false "proj-1" "10.0.0.1" "secret" ∧
    (demoEnv.SetAuth (expectedAuth demoEnv demoOpts "proj-1" "10.0.0.1" "secret") []).1 = none ∧
    ((initializeFlow demoEnv demoOpts 2 false []).err = none ∧
     authWrites (initializeFlow demoEnv demoOpts 2 false []).trace = 1 ∧
     authsHanded (initializeFlow demoEnv demoOpts 2 false []).trace =
       [expectedAuth demoEnv demoOpts "proj-1" "10.0.0.1" "secret"] ∧
     (initializeFlow demoEnv demoOpts 2 false []).store =
       (demoEnv.SetAuth (expectedAuth demoEnv demoOpts "proj-1" "10.0.0.1" "secret") []).2 ∧
     stackWrites (initializeFlow demoEnv demoOpts 2 false []).trace = 0) :=
  ⟨⟨rfl, by decide, rfl, by decide, rfl, rfl⟩, rfl,
   initialize_success_persists_one_auth demoEnv demoOpts 2 false [] "proj-1" "10.0.0.1" "secret"
     ⟨rfl, by decide, rfl, by decide, rfl, rfl⟩ rfl⟩

/-- C3: in every init run in which credential issuance, credential saving and
`InitializeStack` succeed, for stack name `n = opts.Name`, caller-supplied
bucket `b = opts.Bucket`, provider-returned project id `p`, host `h` and
password `w`, the one Auth record handed to `SetAuth` is
`{Name: n, Project: p, Bucket: b if b is non-empty and "datacol-" ++ slug p
otherwise, ApiServer: h, ApiKey: w}`. -/
theorem initialize_auth_record (E : Env σ) (opts : InitOptions) (nodes : Int)
    (optout : Bool) (s : σ) (p h w : String) (hp : Provisions E opts optout p h w) :
    authsHanded (initializeFlow E opts nodes optout s).trace =
      [{ Name := opts.Name, Project := p,
         Bucket := if opts.Bucket = "" then "datacol-" ++ E.slug p else opts.Bucket,
         ApiServer := h, ApiKey := w }] :=
  (initializeFlow_of_provisions E opts nodes optout s p h w hp).2.2.1

/-- Witness of C3, the scenario of the specification: stack `"demo"`, no
bucket given, project id `"proj-1"` whose slug is `"proj-1"`: the record has
name `"demo"`, project `"proj-1"` and bucket `"datacol-proj-1"`. -/
theorem initialize_auth_record_witness :
    Provisions demoEnv demoOpts false "proj-1" "10.0.0.1" "secret" ∧
    demoOpts.Name = "demo" ∧ demoOpts.Bucket = "" ∧ demoEnv.slug "proj-1" = "proj-1" ∧
    authsHanded (initializeFlow demoEnv demoOpts 2 false []).trace =
      [{ Name := "demo", Project := "proj-1", Bucket := "datacol-proj-1",
         ApiServer := "10.0.0.1", ApiKey := "secret" }] :=
  ⟨⟨rfl, by decide, rfl, by decide, rfl, rfl⟩, rfl, rfl, rfl,
   initialize_auth_record demoEnv demoOpts 2 false [] "proj-1" "10.0.0.1" "secret"
     ⟨rfl, by decide, rfl, by decide, rfl, rfl⟩⟩

/-- C4: a teardown run with a loaded Auth record `a` calls `TeardownStack`
with `(a.Name, a.Project, a.Bucket)` first; when that call returns an error
`e`, teardown returns `e`, makes no further call (no `DeleteAuth`, no
`RemoveAll`) and leaves the registry state as it was; every `DeleteAuth` and
`RemoveAll` of the run comes after the `TeardownStack` call, and only when
that call returned no error. -/
theorem teardown_remote_before_local (E : Env σ) (s : σ) (a : Auth)
    (ha : E.GetAuthOrDie s = some a) :
    ∃ r rest, teardown E s = some r ∧
      r.trace = [Event.GetAuthOrDie, Event.TeardownStack a.Name a.Project a.Bucket] ++ rest ∧
      (∀ e, E.TeardownStack a.Name a.Project a.Bucket = some e →
        r.err = some e ∧ rest = [] ∧ r.store = s) ∧
      (rest ≠ [] → E.TeardownStack a.Name a.Project a.Bucket = none) ∧
      (∀ ev ∈ r.trace, ev.isLocalDelete = true → ev ∈ rest) ∧
      (E.TeardownStack a.Name a.Project a.Bucket = none →
        rest.head? = some Event.DeleteAuth ∧
        ((E.DeleteAuth s).1 = none →
          rest = [Event.DeleteAuth, Event.RemoveAll (E.Join [E.ConfigPath, a.Name])])) := by
  unfold teardown
  simp only [ha]
  cases hT : E.TeardownStack a.Name a.Project a.Bucket with
  | some e =>
    refine ⟨_, [], rfl, by simp, ?_, by simp, ?_, by simp⟩
    · intro e2 he
      cases he
      exact ⟨rfl, rfl, rfl⟩
    · intro ev hev hdel
      simp at hev
      rcases hev with h | h <;> subst h <;> simp [Event.isLocalDelete] at hdel
  | none =>
    cases hD : (E.DeleteAuth s).1 with
    | some e =>
      refine ⟨_, [Event.DeleteAuth], rfl, by simp, by simp, by simp, ?_, by simp⟩
      intro ev hev hdel
      simp at hev
      rcases hev with h | h | h <;> subst h <;> simp [Event.isLocalDelete] at hdel ⊢
    | none =>
      refine ⟨_, [Event.DeleteAuth, Event.RemoveAll (E.Join [E.ConfigPath, a.Name])], rfl,
        by simp, by simp, by simp, ?_, by simp⟩
      intro ev hev hdel
      simp at hev
      rcases hev with h | h | h | h <;> subst h <;> simp [Event.isLocalDelete] at hdel ⊢

/-- Witness of C4: the remote destroy fails, the Auth record stays. -/
theorem teardown_remote_before_local_witness :
    teardownFailsEnv.GetAuthOrDie [demoAuth] = some demoAuth ∧
    ∃ r rest, teardown teardownFailsEnv [demoAuth] = some r ∧
      r.trace = [Event.GetAuthOrDie,
        Event.TeardownStack demoAuth.Name demoAuth.Project demoAuth.Bucket] ++ rest ∧
      (∀ e, teardownFailsEnv.TeardownStack demoAuth.Name demoAuth.Project demoAuth.Bucket
          = some e → r.err = some e ∧ rest = [] ∧ r.store = [demoAuth]) ∧
      (rest ≠ [] →
        teardownFailsEnv.TeardownStack demoAuth.Name demoAuth.Project demoAuth.Bucket = none) ∧
      (∀ ev ∈ r.trace, ev.isLocalDelete = true → ev ∈ rest) ∧
      (teardownFailsEnv.TeardownStack demoAuth.Name demoAuth.Project demoAuth.Bucket = none →
        rest.head? = some Event.DeleteAuth ∧
        ((teardownFailsEnv.DeleteAuth [demoAuth]).1 = none →
          rest = [Event.DeleteAuth,
            Event.RemoveAll (teardownFailsEnv.Join [teardownFailsEnv.ConfigPath, demoAuth.Name])])) :=
  ⟨rfl, teardown_remote_before_local teardownFailsEnv [demoAuth] demoAuth rfl⟩

/-! ## Theorems: `client/apps.go` -/

theorem written_append (xs ys : List Rpc) : written (xs ++ ys) = written xs ++ written ys := by
  simp [written, List.filterMap_append]

theorem written_relayCalls (chunks : List Bytes) : written (relayCalls chunks) = chunks := by
  induction chunks with
  | nil => rfl
  | cons c cs ih =>
    simp only [relayCalls]
    simpa [written] using ih

theorem recvLoop_of_yields {τ ω : Type} (Recv : τ → Except GoError Bytes × τ)
    (Write : Bytes → ω → Option GoError × ω) (final : GoError)
    (hw : ∀ d s, (Write d s).1 = none) :
    ∀ (chunks : List Bytes) (fuel : Nat) (st : τ) (snk : ω) (tr : List Rpc),
      Yields Recv st chunks final → chunks.length < fuel →
      recvLoop Recv Write fuel st snk tr =
        some { err := if final = GoError.EOF then none else some final,
               sink := chunks.foldl (fun acc c => (Write c acc).2) snk,
               calls := tr ++ relayCalls chunks ++ [Rpc.Recv] } := by
  intro chunks
  induction chunks with
  | nil =>
    intro fuel st snk tr hy hf
    cases fuel with
    | zero => simp at hf
    | succ n =>
      simp only [Yields] at hy
      unfold recvLoop
      simp only [hy]
      split <;> simp [relayCalls]
  | cons c cs ih =>
    intro fuel st snk tr hy hf
    cases fuel with
    | zero => simp at hf
    | succ n =>
      simp only [Yields] at hy
      obtain ⟨hc, hrest⟩ := hy
      have hn : cs.length < n := by simpa using hf
      unfold recvLoop
      simp only [hc, hw]
      rw [ih n _ _ _ hrest hn]
      simp [relayCalls]

/-- C5: when the opened log stream yields the chunks `b1, ..., bk` and then a
receive error `final`, and every write to the sink succeeds, `StreamAppLogs`
returns (with any fuel above `k`): it returns nil when `final` is `io.EOF` and
`final` itself otherwise; the chunks written to the sink are exactly
`b1, ..., bk` in arrival order (so the bytes received are `b1 ++ ... ++ bk`),
the sink ends in the state those writes leave, and the send side is closed
last. -/
theorem StreamAppLogs_relays_chunks {App Apps Env Cmd τ ω : Type}
    (K : Controller App Apps Env Cmd τ) (name : String) (follow : Bool) (since : Int)
    (Write : Bytes → ω → Option GoError × ω) (snk : ω) (st : τ) (chunks : List Bytes)
    (final : GoError) (fuel : Nat)
    (hopen : K.OpenLogStream name since follow = Except.ok st)
    (hw : ∀ d s, (Write d s).1 = none)
    (hy : Yields K.Recv st chunks final)
    (hf : chunks.length < fuel) :
    ∃ r, StreamAppLogs K name follow since Write snk fuel = some r ∧
      r.err = (if final = GoError.EOF then none else some final) ∧
      written r.calls = chunks ∧
      (written r.calls).flatten = chunks.flatten ∧
      r.sink = chunks.foldl (fun acc c => (Write c acc).2) snk ∧
      r.calls.getLast? = some Rpc.CloseSend := by
  unfold StreamAppLogs
  simp only [hopen]
  rw [recvLoop_of_yields K.Recv Write final hw chunks fuel st snk _ hy hf]
  have hwr : written ([Rpc.OpenLogStream name since follow] ++ relayCalls chunks ++ [Rpc.Recv]
      ++ [Rpc.CloseSend]) = chunks := by
    simp only [written_append, written_relayCalls]
    simp [written]
  exact ⟨_, rfl, rfl, hwr, congrArg List.flatten hwr, rfl, List.getLast?_concat _⟩

/-- Witness of C5, the two scenarios of the specification with a buffer as
sink: three chunks and then end-of-stream give nil and `b1 ++ b2 ++ b3`; an
error after `b1` gives that error and `b1` only. -/
theorem StreamAppLogs_relays_chunks_witness :
    (∃ r, StreamAppLogs (failingController (GoError.other "rpc") GoError.EOF [[1], [2, 3], [4]])
        "web" false 120 bufferWrite [] 4 = some r ∧
      r.err = (if GoError.EOF = GoError.EOF then none else some GoError.EOF) ∧
      written r.calls = [[1], [2, 3], [4]] ∧
      (written r.calls).flatten = [[1], [2, 3], [4]].flatten ∧
      r.sink = [[1], [2, 3], [4]].foldl (fun acc c => (bufferWrite c acc).2) [] ∧
      r.calls.getLast? = some Rpc.CloseSend) ∧
    [[1], [2, 3], [4]].foldl (fun acc c => (bufferWrite c acc).2) [] = ([1, 2, 3, 4] : Bytes) ∧
    (∃ r, StreamAppLogs
        (failingController (GoError.other "rpc") (GoError.other "connection reset") [[1]])
        "web" true 120 bufferWrite [] 2 = some r ∧
      r.err = (if GoError.other "connection reset" = GoError.EOF then none
               else some (GoError.other "connection reset")) ∧
      written r.calls = [[1]] ∧
      (written r.calls).flatten = [[1]].flatten ∧
      r.sink = [[1]].foldl (fun acc c => (bufferWrite c acc).2) [] ∧
      r.calls.getLast? = some Rpc.CloseSend) ∧
    [[1]].foldl (fun acc c => (bufferWrite c acc).2) [] = ([1] : Bytes) :=
  ⟨StreamAppLogs_relays_chunks (failingController (GoError.other "rpc") GoError.EOF
      [[1], [2, 3], [4]]) "web" false 120 bufferWrite [] [[1], [2, 3], [4]]
      [[1], [2, 3], [4]] GoError.EOF 4 rfl (fun _ _ => rfl) ⟨rfl, rfl, rfl, rfl⟩ (by decide),
   rfl,
   StreamAppLogs_relays_chunks (failingController (GoError.other "rpc")
      (GoError.other "connection reset") [[1]]) "web" true 120 bufferWrite [] [[1]] [[1]]
      (GoError.other "connection reset") 2 rfl (fun _ _ => rfl) ⟨rfl, rfl⟩ (by decide),
   rfl⟩

/-- C8 at `GetApps`: when `AppList` returns an error and no response, `GetApps`
makes its one call and then panics on `ret.Apps` instead of returning the
error, while `GetEnvironment`, which looks at the error first, returns it. -/
theorem GetApps_nil_response_panics :
    (failingController (GoError.other "rpc") GoError.EOF []).AppList
      = (none, some (GoError.other "rpc")) ∧
    (GetApps (failingController (GoError.other "rpc") GoError.EOF [])).calls = [Rpc.AppList] ∧
    (GetApps (failingController (GoError.other "rpc") GoError.EOF [])).out = Outcome.panicked ∧
    (GetEnvironment (failingController (GoError.other "rpc") GoError.EOF []) "web").out
      = Outcome.returned (none, some (GoError.other "rpc")) :=
  ⟨rfl, rfl, rfl, rfl⟩

theorem GetApps_panics_of_nil {App Apps Env Cmd τ : Type} (K : Controller App Apps Env Cmd τ)
    (hnil : K.AppList.1 = none) : (GetApps K).out = Outcome.panicked := by
  unfold GetApps
  simp only [hnil]

theorem gateway_unary_return_error {App Apps Env Cmd τ : Type}
    (K : Controller App Apps Env Cmd τ) (name data : String) (e : GoError) :
    (K.AppGet name = (none, some e) →
      GetApp K name = { calls := [Rpc.AppGet name], out := Outcome.returned (none, some e) }) ∧
    (K.AppCreate name = (none, some e) →
      CreateApp K name
        = { calls := [Rpc.AppCreate name], out := Outcome.returned (none, some e) }) ∧
    (K.AppDelete name = (none, some e) →
      DeleteApp K name = { calls := [Rpc.AppDelete name], out := Outcome.returned (some e) }) ∧
    (K.AppRestart name = (none, some e) →
      RestartApp K name
        = { calls := [Rpc.AppRestart name], out := Outcome.returned (some e) }) ∧
    (K.EnvironmentGet name = (none, some e) →
      GetEnvironment K name
        = { calls := [Rpc.EnvironmentGet name], out := Outcome.returned (none, some e) }) ∧
    (K.EnvironmentSet name data = (none, some e) →
      SetEnvironment K name data
        = { calls := [Rpc.EnvironmentSet name data], out := Outcome.returned (some e) }) := by
  refine ⟨?_, ?_, ?_, ?_, ?_, ?_⟩ <;> intro h
  · simp [GetApp, h]
  · simp [CreateApp, h]
  · simp [DeleteApp, h]
  · simp [RestartApp, h]
  · simp [GetEnvironment, h]
  · simp [SetEnvironment, h]

/-! ## Theorems: `client/client.go` -/

/-- C9, as stated, fails: after `SetStack("a")` succeeds and `SetStack("b")`
fails on the registry lookup, the client holds `StackName = "b"` together with
the Stack of `"a"`, which is not what the registry returns for `"b"`. -/
theorem SetStack_stale_stack_counterexample :
    (Client.SetStack registryA freshClient "a").1 = none ∧
    (Client.SetStack registryA (Client.SetStack registryA freshClient "a").2 "b").1
      = some GoError.stack404 ∧
    (Client.SetStack registryA (Client.SetStack registryA freshClient "a").2 "b").2.StackName
      = "b" ∧
    (Client.SetStack registryA (Client.SetStack registryA freshClient "a").2 "b").2.Stack
      = some stackA ∧
    (registryA "b").1 = none ∧
    ¬ ((Client.SetStack registryA (Client.SetStack registryA freshClient "a").2 "b").2.Stack
        = (registryA "b").1) := by
  refine ⟨rfl, rfl, rfl, rfl, rfl, ?_⟩
  intro h
  cases h

/-- C9, amended: after `SetStack(name)` the client's `StackName` is `name`;
when the registry lookup succeeds, `SetStack` returns nil and the held Stack
is the one the registry returned for `name`; when the lookup fails, `SetStack`
returns the "create a stack first" error. -/
theorem SetStack_last_wins (FindStack : String → Option Stack × Option GoError) (c : Client)
    (name : String) :
    (Client.SetStack FindStack c name).2.StackName = name ∧
    ((FindStack name).2 = none →
      (Client.SetStack FindStack c name).1 = none ∧
      (Client.SetStack FindStack c name).2.Stack = (FindStack name).1) ∧
    ((FindStack name).2 ≠ none →
      (Client.SetStack FindStack c name).1 = some GoError.stack404) := by
  unfold Client.SetStack
  simp only []
  cases (FindStack name).2 <;> simp

/-- Witness of amended C9: two successive calls on a registry that knows
`"a"` only. -/
theorem SetStack_last_wins_witness :
    (Client.SetStack registryA freshClient "a").2.StackName = "a" ∧
    ((registryA "a").2 = none →
      (Client.SetStack registryA freshClient "a").1 = none ∧
      (Client.SetStack registryA freshClient "a").2.Stack = (registryA "a").1) ∧
    ((registryA "a").2 ≠ none →
      (Client.SetStack registryA freshClient "a").1 = some GoError.stack404) :=
  SetStack_last_wins registryA freshClient "a"

/-! ## Theorems: `cmd/run.go` -/

theorem execute_exec_fields (X : ExecEnv) (env pod : String) (args : List String) :
    (execute_exec X env pod args).argv =
      ["--kubeconfig", X.Join [X.ConfigPath, env, "kubeconfig"], "-n", env, "--pod", pod, "exec"]
        ++ args ∧
    (execute_exec X env pod args).exitcode =
      exitcodeOf (X.Run "kubectl"
        (["--kubeconfig", X.Join [X.ConfigPath, env, "kubeconfig"], "-n", env, "--pod", pod,
          "exec"] ++ args)).err ∧
    printed (execute_exec X env pod args).trace =
      [if exitcodeOf (X.Run "kubectl"
          (["--kubeconfig", X.Join [X.ConfigPath, env, "kubeconfig"], "-n", env, "--pod", pod,
            "exec"] ++ args)).err = 0
       then (X.Run "kubectl"
          (["--kubeconfig", X.Join [X.ConfigPath, env, "kubeconfig"], "-n", env, "--pod", pod,
            "exec"] ++ args)).stdout
       else (X.Run "kubectl"
          (["--kubeconfig", X.Join [X.ConfigPath, env, "kubeconfig"], "-n", env, "--pod", pod,
            "exec"] ++ args)).stderr] ∧
    Event.Command "kubectl" (execute_exec X env pod args).argv
      ∈ (execute_exec X env pod args).trace := by
  unfold execute_exec
  simp only []
  split <;> rename_i hc <;> simp [printed, hc]

theorem exitStatus_of_exited (n : Nat) (hn : n < 256) :
    (WaitStatus.mk (256 * n)).Exited = true ∧ (WaitStatus.mk (256 * n)).ExitStatus = n := by
  have h1 : 256 * n % 128 = 0 := by omega
  have h2 : 256 * n / 256 % 256 = n := by omega
  refine ⟨by simp [WaitStatus.Exited, h1], ?_⟩
  unfold WaitStatus.ExitStatus
  simp only [WaitStatus.Exited, h1, h2]
  simp

theorem exitStatus_of_not_exited (w : WaitStatus) (hw : w.Exited = false) :
    w.ExitStatus = -1 := by
  simp [WaitStatus.ExitStatus, hw]

/-- C6, as stated, fails: a subprocess killed by signal 9 makes `c.Run()`
return an `*exec.ExitError` whose wait status is not a normal exit; its
`ExitStatus()` is `-1`, so `execute_exec` prints the stderr buffer and returns
`-1`, not the stdout buffer and `0`. -/
theorem execute_exec_signal_counterexample :
    (WaitStatus.mk 9).Exited = false ∧
    (execute_exec (procEnv killedProc)
      "demo" "web-7f" ["ls"]).exitcode = -1 ∧
    printed (execute_exec (procEnv killedProc)
      "demo" "web-7f" ["ls"]).trace = ["err"] ∧
    ¬ (printed (execute_exec (procEnv killedProc)
        "demo" "web-7f" ["ls"]).trace = ["out"] ∧
       (execute_exec (procEnv killedProc)
        "demo" "web-7f" ["ls"]).exitcode = 0) := by
  refine ⟨by decide, by decide, by decide, ?_⟩
  intro h
  exact absurd h.2 (by decide)

/-- C6, amended: with `p` what running the subprocess gives. If the process
exited with a non-zero status `n` (wait status `n << 8`), or more generally
`c.Run()` returns an `*exec.ExitError` whose wait status has a non-zero
`ExitStatus()`, the stderr buffer alone is handed to `fmt.Printf` and that
status is returned; this includes a process that did not exit normally (killed
by a signal), for which the status is `-1`. If `c.Run()` returns nil (exit
status 0), an `*exec.ExitError` without a wait status or with exit status 0,
or an error that is no `*exec.ExitError` (the launch failed), the stdout buffer
alone is handed to `fmt.Printf` and 0 is returned. -/
theorem execute_exec_exit_mapping (X : ExecEnv) (env pod : String) (args : List String)
    (p : ProcResult)
    (hp : X.Run "kubectl"
      (["--kubeconfig", X.Join [X.ConfigPath, env, "kubeconfig"], "-n", env, "--pod", pod,
        "exec"] ++ args) = p) :
    (∀ n : Nat, 0 < n → n < 256 →
      p.err = some (RunError.ExitError (some (WaitStatus.mk (256 * n)))) →
      printed (execute_exec X env pod args).trace = [p.stderr] ∧
      (execute_exec X env pod args).exitcode = n) ∧
    (∀ w : WaitStatus, p.err = some (RunError.ExitError (some w)) → w.ExitStatus ≠ 0 →
      printed (execute_exec X env pod args).trace = [p.stderr] ∧
      (execute_exec X env pod args).exitcode = w.ExitStatus) ∧
    (∀ w : WaitStatus, p.err = some (RunError.ExitError (some w)) → w.Exited = false →
      printed (execute_exec X env pod args).trace = [p.stderr] ∧
      (execute_exec X env pod args).exitcode = -1) ∧
    ((p.err = none ∨ p.err = some (RunError.ExitError none) ∨
        (∃ e, p.err = some (RunError.other e)) ∨
        (∃ w : WaitStatus, p.err = some (RunError.ExitError (some w)) ∧ w.ExitStatus = 0)) →
      printed (execute_exec X env pod args).trace = [p.stdout] ∧
      (execute_exec X env pod args).exitcode = 0) := by
  obtain ⟨-, hcode, hprint, -⟩ := execute_exec_fields X env pod args
  rw [hp] at hcode hprint
  have key : ∀ w : WaitStatus, p.err = some (RunError.ExitError (some w)) → w.ExitStatus ≠ 0 →
      printed (execute_exec X env pod args).trace = [p.stderr] ∧
      (execute_exec X env pod args).exitcode = w.ExitStatus := by
    intro w hw hne
    have hx : exitcodeOf p.err = w.ExitStatus := by rw [hw]; rfl
    rw [hprint, hcode, hx, if_neg hne]
    exact ⟨rfl, rfl⟩
  refine ⟨?_, key, ?_, ?_⟩
  · intro n hpos hlt hw
    obtain ⟨-, hst⟩ := exitStatus_of_exited n hlt
    have hne : (WaitStatus.mk (256 * n)).ExitStatus ≠ 0 := by
      rw [hst]
      exact_mod_cast Nat.pos_iff_ne_zero.mp hpos
    have := key _ hw hne
    rw [hst] at this
    exact this
  · intro w hw hex
    have hst := exitStatus_of_not_exited w hex
    have := key w hw (by rw [hst]; decide)
    rw [hst] at this
    exact this
  · intro h
    have hx : exitcodeOf p.err = 0 := by
      rcases h with h | h | ⟨e, h⟩ | ⟨w, h, h0⟩
      · rw [h]; rfl
      · rw [h]; rfl
      · rw [h]; rfl
      · rw [h]; exact h0
    rw [hprint, hcode, hx, if_pos rfl]
    exact ⟨rfl, rfl⟩

/-- Witness of amended C6, the two scenarios of the specification: exit
status 2 with stderr `"boom"` returns 2 and prints `"boom"` only; exit status 0
with stdout `"ok"` returns 0 and prints `"ok"`. -/
theorem execute_exec_exit_mapping_witness :
    (printed (execute_exec (procEnv boomProc)
      "demo" "web-7f" ["ls"]).trace = ["boom"] ∧
     (execute_exec (procEnv boomProc)
      "demo" "web-7f" ["ls"]).exitcode = (2 : Nat)) ∧
    (printed (execute_exec (procEnv okProc)
      "demo" "web-7f" ["ls"]).trace = ["ok"] ∧
     (execute_exec (procEnv okProc)
      "demo" "web-7f" ["ls"]).exitcode = 0) :=
  ⟨(execute_exec_exit_mapping (procEnv boomProc)
      "demo" "web-7f" ["ls"] _ rfl).1 2 (by decide) (by decide) rfl,
   (execute_exec_exit_mapping (procEnv okProc)
      "demo" "web-7f" ["ls"] _ rfl).2.2.2 (Or.inl rfl)⟩

/-- C7: for every stack name `env`, pod id `pod` and argument list `args`, the
argument vector `execute_exec` gives to `kubectl` is `["--kubeconfig",
Join(ConfigPath, env, "kubeconfig"), "-n", env, "--pod", pod, "exec"] ++ args`:
seven fixed elements, then the caller's arguments unchanged and in order, of
length `7 + len(args)`; it is the vector the subprocess is started with. -/
theorem execute_exec_argument_vector (X : ExecEnv) (env pod : String) (args : List String) :
    (execute_exec X env pod args).argv =
      ["--kubeconfig", X.Join [X.ConfigPath, env, "kubeconfig"], "-n", env, "--pod", pod, "exec"]
        ++ args ∧
    (execute_exec X env pod args).argv.length = 7 + args.length ∧
    (execute_exec X env pod args).argv.drop 7 = args ∧
    Event.Command "kubectl" (execute_exec X env pod args).argv
      ∈ (execute_exec X env pod args).trace := by
  obtain ⟨hargv, -, -, hcmd⟩ := execute_exec_fields X env pod args
  refine ⟨hargv, ?_, ?_, hcmd⟩
  · rw [hargv]
    simp
    omega
  · rw [hargv]
    simp

/-- Witness of C7, the scenario of the specification: pod `"web-7f"` and
arguments `["ls"]` on stack `"demo"` under the root `/home/user/.datacol`. -/
theorem execute_exec_argument_vector_witness :
    (execute_exec (procEnv okProc)
      "demo" "web-7f" ["ls"]).argv =
      ["--kubeconfig", "/home/user/.datacol/demo/kubeconfig", "-n", "demo", "--pod", "web-7f",
       "exec", "ls"] :=
  (execute_exec_argument_vector (procEnv okProc)
    "demo" "web-7f" ["ls"]).1

/-! ## Theorems: file modes of `saveCredential` -/

/-- C10 at the credential file: `saveCredential` creates the stack directory
with mode `0700`, which grants nothing to group or others, but writes the
credential file with mode `0777`, which grants read, write and execute to
group and others. -/
theorem saveCredential_file_mode_open :
    saveCredential demoEnv "demo" [123, 125] =
      (none, [Event.MkdirAll "/home/user/.datacol/demo" 0o700,
              Event.Debugf "saving GCP credentials at /home/user/.datacol/demo/sva.json",
              Event.WriteFile "/home/user/.datacol/demo/sva.json" [123, 125] 0o777]) ∧
    grantsGroupOrOthers 0o700 = false ∧
    grantsGroupOrOthers 0o777 = true ∧
    0o777 &&& 0o077 = 0o077 :=
  ⟨rfl, by decide, by decide, by decide⟩

theorem saveCredential_modes (E : Env σ) (name : String) (data : Bytes)
    (hdir : E.MkdirAll (E.Join [E.ConfigPath, name]) 0o700 = none) :
    (saveCredential E name data).2 =
      [Event.MkdirAll (E.Join [E.ConfigPath, name]) 0o700,
       Event.Debugf ("saving GCP credentials at " ++ E.Join [E.ConfigPath, name, E.SvaFilename]),
       Event.WriteFile (E.Join [E.ConfigPath, name, E.SvaFilename]) data 0o777] := by
  unfold saveCredential createStackDir
  simp only [hdir]
  rfl

end Datacol
